import Mathlib

/-!
Verification development for the Amazon FreeRTOS large-object-transfer
protocol sources (`aws_iot_large_object_transfer.c` and its revisions).

The windowed sender core (block framing, window emission, selective
retransmission, ACK processing, timer-driven retransmission, and the
inbound-datagram demultiplexer) is embedded shallowly from the revision
in `src/unnamed/part_001`; the session-handle API and session-identifier
generator are embedded from
`src/lib/bluetooth_low_energy/services/large_object_transfer/aws_iot_large_object_transfer.c`.

Modelling conventions:
- bytes and machine integers are `Nat` with explicit `% 256` / `% 65536`
  truncation at the points where the C code stores into a narrower type;
- heap buffers are `List Nat`; `malloc` returns a buffer filled with an
  arbitrary byte (`NetEnv.mallocByte`), since C malloc memory is
  uninitialized;
- the link's `send` primitive is an oracle `NetEnv.net : frame ↦ bytes_sent`;
- the FreeRTOS timer service is modelled by a Boolean armed-flag per
  session plus success oracles for stop/start/create (the code checks the
  return value of each timer call and fails the session when one fails).
-/

namespace LargeObjectTransfer

/-! ### Error codes

`AwsIotLargeObjectTransferError_t` of the revision in `src/unnamed/part_001`.
The header revision matching part_001 is not among the sources; the only
facts the code uses are that SUCCESS is 0 (the enum cast of ACK byte 2
compares equal to SUCCESS exactly for byte value 0) and that the other
codes are nonzero and pairwise distinct, so the codes are plain `Nat`. -/

def errSUCCESS : Nat := 0
def errNO_MEMORY : Nat := 1
def errMAX_SESSIONS_REACHED : Nat := 2
def errINVALID_PARAM : Nat := 3
def errNETWORK_ERROR : Nat := 4
def errTIMED_OUT : Nat := 5
def errEXPIRED : Nat := 6
def errINTERNAL_ERROR : Nat := 7
def errINVALID_PACKET : Nat := 8

/-- Session phase (`AwsIotLargeObjectTransferStatus_t`); part_001 uses
Init, DataSend, Failed and Complete. -/
inductive SState where
  | init
  | dataSend
  | failed
  | complete
deriving DecidableEq

/-- External-collaborator oracle: link send result, malloc fill byte and
availability, and timer-service results. -/
structure NetEnv where
  net : List Nat → Nat
  mallocByte : Nat
  mallocOk : Bool
  timerStopOk : Bool
  timerStartOk : Bool
  timerCreateOk : Bool

/-! ### Byte-buffer primitives -/

/-- Store one byte (`uint8_t` write). -/
def store8 (buf : List Nat) (off v : Nat) : List Nat :=
  buf.set off (v % 256)

/-- Store a `uint16_t` little-endian (the C writes `*(uint16_t*)p = v`;
the target is a little-endian ARM port). -/
def store16 (buf : List Nat) (off v : Nat) : List Nat :=
  (buf.set off (v % 256)).set (off + 1) (v / 256 % 256)

/-- `memcpy( buf + off, src, src.length )`. -/
def memcpyAt : List Nat → Nat → List Nat → List Nat
  | buf, _, [] => buf
  | buf, off, b :: rest => memcpyAt (buf.set off (b % 256)) (off + 1) rest

/-! ### Data-block frame (part_001 lines 73..97, 102..154)

`_RESERVED_BITS_MASK = 0xE0`, `_LAST_BLOCK_MASK = 0x1`,
`_RESUME_SESSION_MASK = 0x2`.  `_SESSION_ID` is a u16 at offset 0,
`_BLOCK_NUMBER` a u16 at offset 2, `_FLAGS` a u8 at offset 4, and
`_BLOCK_DATA` is *also* offset 4 (`pucBlock + 4`), while
`_BLOCK_LEN(n) = n + 5`: the payload memcpy lands at offset 4, on top of
the flags octet.  The embedding reproduces the write sequence of
`prxSendBlock` exactly (session id, block number, flags, then memcpy). -/

def flagsByte (lastBlock resume : Bool) : Nat :=
  ((0xE0 : Nat) ||| (if lastBlock then 0x1 else 0)) ||| (if resume then 0x2 else 0)

def blockFrame (mallocByte sid blockNum : Nat) (lastBlock resume : Bool)
    (blockData : List Nat) : List Nat :=
  memcpyAt
    (store8
      (store16 (store16 (List.replicate (blockData.length + 5) mallocByte) 0 sid) 2 blockNum)
      4 (flagsByte lastBlock resume))
    4 blockData

/-- `prxSendBlock` (part_001 lines 102..154).  Returns the error code and
the emitted datagrams (one if malloc succeeded, none otherwise).
A partial send (`xSent < xBlockLength`) yields NETWORK_ERROR. -/
def prxSendBlock (env : NetEnv) (sid blockNum : Nat) (lastBlock resume : Bool)
    (blockData : List Nat) : Nat × List (List Nat) :=
  if env.mallocOk then
    let frame := blockFrame env.mallocByte sid blockNum lastBlock resume blockData
    let sent := env.net frame
    (if sent < frame.length then errNETWORK_ERROR else errSUCCESS, [frame])
  else
    (errNO_MEMORY, [])

/-! ### ACK frame emission (`prvSendACK`, part_001 lines 156..185)

`_ACK_LENGTH(b) = b + 3`; session id at 0, error byte at 2, bitmap at 3.
On malloc failure the function returns the caller's error argument
unchanged; on partial send it returns NETWORK_ERROR. -/

def ackFrame (mallocByte sid errByte : Nat) (bitMap : List Nat) : List Nat :=
  memcpyAt (store8 (store16 (List.replicate (bitMap.length + 3) mallocByte) 0 sid) 2 errByte)
    3 bitMap

def prvSendACK (env : NetEnv) (sid xErrIn : Nat) (bitMap : List Nat) :
    Nat × List (List Nat) :=
  if env.mallocOk then
    let frame := ackFrame env.mallocByte sid xErrIn bitMap
    let sent := env.net frame
    (if sent < frame.length then errNETWORK_ERROR else xErrIn, [frame])
  else
    (xErrIn, [])

/-! ### Send-session state (`AwsIotLargeObjectSendSession_t` as used by part_001)

`timerArmed` models the one-shot retransmit timer (`xRetransmitTimer`).
All `usXxx` fields are `uint16_t` and `xOffset`, `xObjectLength` are
`size_t`; reachable states keep them below their type bounds
(`windowSize ≤ 16384`, so block numbers stay below 2^16), so no modular
truncation arises in the operations below. -/

structure SendSession where
  usSessionID : Nat
  pucObject : List Nat
  xObjectLength : Nat
  xOffset : Nat
  usBlockNum : Nat
  usWindowSize : Nat
  usBlockSize : Nat
  usRetriesLeft : Nat
  usNumRetries : Nat
  xState : SState
  timerArmed : Bool
deriving DecidableEq

/-- Byte offset of block number `b`: `xOffset + b * usBlockSize`
(both window loops compute it this way). -/
def blockOffset (s : SendSession) (b : Nat) : Nat :=
  s.xOffset + b * s.usBlockSize

/-- The loops' last-block test: `(xOffset + xLength) >= xObjectLength`
with `xLength = usBlockSize`. -/
def isLastBlock (s : SendSession) (b : Nat) : Bool :=
  decide (s.xObjectLength ≤ blockOffset s b + s.usBlockSize)

/-- Payload length of block `b` (`usBlockSize`, clipped at the object end
for the last block). -/
def blockLength (s : SendSession) (b : Nat) : Nat :=
  if isLastBlock s b then s.xObjectLength - blockOffset s b else s.usBlockSize

/-- Payload of block `b`, read from the object buffer.  (At part_001 line
208 `prxSendWindow` computes the source pointer as
`xObjectLength + xOffset` — an integer used as a pointer, which is not a
well-formed C expression; the sibling loop `prxRetransmitMissingBlocks`
line 269 reads `pucObject + xOffset`, and the reads are modelled that way
for both loops.) -/
def blockPayload (s : SendSession) (b : Nat) : List Nat :=
  (s.pucObject.drop (blockOffset s b)).take (blockLength s b)

/-- `prxSendWindow` loop body (part_001 lines 188..223): for
`ulIndex = idx, idx+1, …` while fewer than `k` more iterations remain and
neither an error nor the last block stopped the loop, emit block
`usBlockNum + ulIndex`. -/
def prxSendWindowAux (env : NetEnv) (s : SendSession) : Nat → Nat → Nat × List (List Nat)
  | _, 0 => (errSUCCESS, [])
  | ulIndex, k + 1 =>
    let b := s.usBlockNum + ulIndex
    let r := prxSendBlock env s.usSessionID b (isLastBlock s b) false (blockPayload s b)
    if r.1 ≠ errSUCCESS then r
    else if isLastBlock s b then r
    else
      let rest := prxSendWindowAux env s (ulIndex + 1) k
      (rest.1, r.2 ++ rest.2)

/-- `prxSendWindow`: `usWindowSize` iterations starting at index 0. -/
def prxSendWindow (env : NetEnv) (s : SendSession) : Nat × List (List Nat) :=
  prxSendWindowAux env s 0 s.usWindowSize

/-- `prxIsValueSet` (part_001 lines 225..237): byte `ulValue >> 3`,
bit `ulValue & 0x7`. -/
def prxIsValueSet (pucBitMap : List Nat) (ulValue : Nat) : Bool :=
  let ulIndex := ulValue >>> 3
  let ulPos := ulValue &&& 0x7
  decide (pucBitMap.getD ulIndex 0 &&& (1 <<< ulPos) ≠ 0)

/-- `_BITMAP_SIZE( windowSize )` = `_BITS_TO_BYTES( 2 * windowSize )`
= `(2*windowSize + 7) >> 3`.  (Part_001 line 71 writes the inner term as
`_BLOCK_NUMBER_MAX( windowSize )`, the sibling revisions' name for
`2 * windowSize`.) -/
def bitmapSize (windowSize : Nat) : Nat :=
  (2 * windowSize + 7) >>> 3

/-- `prxRetransmitMissingBlocks` loop body (part_001 lines 257..282):
blocks whose bitmap bit is set are re-emitted; the loop stops early after
re-emitting a block that reaches the object end. -/
def prxRetransmitAux (env : NetEnv) (s : SendSession) (pucBitMap : List Nat) :
    Nat → Nat → Nat × List (List Nat)
  | _, 0 => (errSUCCESS, [])
  | ulIndex, k + 1 =>
    let b := s.usBlockNum + ulIndex
    if prxIsValueSet pucBitMap b then
      let r := prxSendBlock env s.usSessionID b (isLastBlock s b) false (blockPayload s b)
      if r.1 ≠ errSUCCESS then r
      else if isLastBlock s b then r
      else
        let rest := prxRetransmitAux env s pucBitMap (ulIndex + 1) k
        (rest.1, r.2 ++ rest.2)
    else
      prxRetransmitAux env s pucBitMap (ulIndex + 1) k

/-- `prxRetransmitMissingBlocks` (part_001 lines 239..286): a bitmap whose
length differs from `_BITMAP_SIZE(usWindowSize)` is INVALID_PACKET. -/
def prxRetransmitMissingBlocks (env : NetEnv) (s : SendSession)
    (pucBitMap : List Nat) (xBitMapLength : Nat) : Nat × List (List Nat) :=
  if xBitMapLength ≠ bitmapSize s.usWindowSize then (errINVALID_PACKET, [])
  else prxRetransmitAux env s pucBitMap 0 s.usWindowSize

/-- `prvRetransmitWindow` (part_001 lines 288..314), the retransmit-timer
callback.  The source compares `prxSendWindow`'s error result against
`pdFALSE` (which is 0, the value of SUCCESS), so the branch that logs
"Failed to retransmit window" and fails the session is taken exactly when
the window send succeeded, and the decrement/rearm branch is taken when it
failed.  The embedding keeps that comparison as written. -/
def prvRetransmitWindow (env : NetEnv) (s : SendSession) : SendSession × List (List Nat) :=
  if s.usRetriesLeft > 0 then
    let r := prxSendWindow env s
    if r.1 = errSUCCESS then
      ({ s with xState := SState.failed }, r.2)
    else
      if env.timerStartOk then
        ({ s with usRetriesLeft := s.usRetriesLeft - 1, timerArmed := true }, r.2)
      else
        ({ s with usRetriesLeft := s.usRetriesLeft - 1, xState := SState.failed }, r.2)
  else
    ({ s with xState := SState.failed }, [])

/-- `prvProcessACK` (part_001 lines 322..387).  Mirrors the source's error
threading: the error starts as the ACK's byte 2 (`_ERROR_CODE`, read
before the length check; the out-of-range read for short buffers is
modelled as `getD _ 0`), is overridden with INVALID_PACKET for
`xLength < 3`, the timer is stopped only while the error is SUCCESS, a
nonzero `_BITMAP_LEN` routes to selective retransmission, a zero one
advances the window (`_INCR_WINDOW`, `_INCR_OFFSET`), and any nonzero
error at the end fails the session. -/
def prvProcessACK (env : NetEnv) (s : SendSession) (pucACK : List Nat) :
    SendSession × List (List Nat) :=
  let xLength := pucACK.length
  let e0 := pucACK.getD 2 0
  let e1 := if xLength < 3 then errINVALID_PACKET else e0
  let stopPhase : Nat × SendSession :=
    if e1 = errSUCCESS then
      if env.timerStopOk then (e1, { s with timerArmed := false })
      else (errINTERNAL_ERROR, s)
    else (e1, s)
  let e2 := stopPhase.1
  let s2 := stopPhase.2
  let mainPhase : Nat × SendSession × List (List Nat) :=
    if e2 = errSUCCESS then
      let usBitMapLen := xLength - 3
      if usBitMapLen ≠ 0 then
        let r := prxRetransmitMissingBlocks env s2 (pucACK.drop 3) usBitMapLen
        (r.1, s2, r.2)
      else
        let sIncr := { s2 with usBlockNum := (s2.usBlockNum + s2.usWindowSize) % (2 * s2.usWindowSize) }
        let sAdv :=
          if sIncr.usBlockNum = 0 then
            { sIncr with xOffset := sIncr.xOffset + 2 * sIncr.usWindowSize * sIncr.usBlockSize }
          else sIncr
        if sAdv.xOffset < sAdv.xObjectLength then
          let r := prxSendWindow env sAdv
          if r.1 = errSUCCESS then
            if env.timerStartOk then (errSUCCESS, { sAdv with timerArmed := true }, r.2)
            else (errINTERNAL_ERROR, sAdv, r.2)
          else (r.1, sAdv, r.2)
        else
          (errSUCCESS, { sAdv with xState := SState.complete }, [])
    else (e2, s2, [])
  if mainPhase.1 ≠ errSUCCESS then
    ({ mainPhase.2.1 with xState := SState.failed }, mainPhase.2.2)
  else
    (mainPhase.2.1, mainPhase.2.2)

/-! ### Receive sessions and the demultiplexer (part_001 lines 316..501) -/

/-- Fields of `AwsIotLargeObjectReceiveSession_t` that part_001 touches.
`ackTimerCreated` models the `xAckTimer` handle (`NULL` ↔ `false`). -/
structure RecvSession where
  usSessionID : Nat
  xOffset : Nat
  usWindowSize : Nat
  usBlockSize : Nat
  usNumRetries : Nat
  usRetriesLeft : Nat
  xState : SState
  ackTimerCreated : Bool
deriving DecidableEq

/-- `AwsIotLargeObjectTransferParams_t` fields part_001 reads. -/
structure Params where
  usMTU : Nat
  windowSize : Nat
  timeoutMilliseconds : Nat
  numRetransmissions : Nat
deriving DecidableEq

/-- `AwsIotLargeObjectTransferContext_t`: the session table.
`usNumSendSessions` / `usNumRecvSessions` are the list lengths. -/
structure Ctx where
  xParameters : Params
  pxSendSessions : List SendSession
  pxRecvSessions : List RecvSession
deriving DecidableEq

/-- `prvProcessBlock` (part_001 lines 316..320): the body is only
`/** TODO: To be implemented **/`, so the receive session is returned
unchanged. -/
def prvProcessBlock (s : RecvSession) (_pucBlock : List Nat) : RecvSession := s

/-- `_SESSION_FREE( xState )` (part_001 line 99). -/
def sessionFree (xState : SState) : Bool :=
  decide (xState = SState.init ∨ xState = SState.complete)

/-- `prxCreateReceiveSession` (part_001 lines 389..418): fills the slot
from the context parameters (`usBlockSize = _MAX_BLOCK_DATA_LEN(usMTU)
= usMTU - 5`), creates the ACK timer, and reports INTERNAL_ERROR when the
timer cannot be created.  It does not touch `xState`, and the slot's
fields are overwritten even on the error path (they are assigned before
`xTimerCreate`). -/
def prxCreateReceiveSession (env : NetEnv) (ctx : Ctx) (s : RecvSession)
    (usSessionId : Nat) : Nat × RecvSession :=
  let sNew :=
    { s with
      usSessionID := usSessionId
      xOffset := 0
      usWindowSize := ctx.xParameters.windowSize
      usBlockSize := ctx.xParameters.usMTU - 5
      usNumRetries := ctx.xParameters.numRetransmissions
      usRetriesLeft := ctx.xParameters.numRetransmissions
      ackTimerCreated := env.timerCreateOk }
  (if env.timerCreateOk then errSUCCESS else errINTERNAL_ERROR, sNew)

/-- First loop of `prvNetworkReceiveCallback` (lines 436..445): the first
send session whose `usSessionID` equals the datagram's id receives the
datagram as an ACK; `none` when no send session matches. -/
def processSendSessions (env : NetEnv) (pucData : List Nat) (sid : Nat) :
    List SendSession → Option (List SendSession × List (List Nat))
  | [] => none
  | ss :: rest =>
    if ss.usSessionID = sid then
      let r := prvProcessACK env ss pucData
      some (r.1 :: rest, r.2)
    else
      (processSendSessions env pucData sid rest).map (fun p => (ss :: p.1, p.2))

/-- Second loop (lines 447..460): the first matching receive session gets
the datagram as a data block. -/
def processRecvSessions (pucData : List Nat) (sid : Nat) :
    List RecvSession → Option (List RecvSession)
  | [] => none
  | rs :: rest =>
    if rs.usSessionID = sid then some (prvProcessBlock rs pucData :: rest)
    else (processRecvSessions pucData sid rest).map (rs :: ·)

/-- Third loop plus creation (lines 462..494): find the first free
receive slot and run `prxCreateReceiveSession` on it.  (On success the
source then calls `prvHandleBlock`, a function declared nowhere in this
revision; its only candidate, `prvProcessBlock`, is an unimplemented
no-op, so the slot state is the created one either way.) -/
def createInFreeSlot (env : NetEnv) (ctx : Ctx) (sid : Nat) :
    List RecvSession → Option (List RecvSession)
  | [] => none
  | rs :: rest =>
    if sessionFree rs.xState then
      some ((prxCreateReceiveSession env ctx rs sid).2 :: rest)
    else
      (createInFreeSlot env ctx sid rest).map (rs :: ·)

/-- `prvNetworkReceiveCallback` (part_001 lines 421..501).  `_SESSION_ID`
is read from bytes 0..2 with no length check (out-of-range bytes read as
the `getD` default).  Routing: send-session match → ACK handling;
receive-session match → block handling; otherwise a new receive session
is created in the first free slot, and the datagram is dropped (with an
error log only) when no slot is free.  The second component is the list
of datagrams the callback emitted in response. -/
def prvNetworkReceiveCallback (env : NetEnv) (ctx : Ctx) (pucData : List Nat) :
    Ctx × List (List Nat) :=
  let usSessionID := pucData.getD 0 0 + 256 * pucData.getD 1 0
  match processSendSessions env pucData usSessionID ctx.pxSendSessions with
  | some p => ({ ctx with pxSendSessions := p.1 }, p.2)
  | none =>
    match processRecvSessions pucData usSessionID ctx.pxRecvSessions with
    | some rs => ({ ctx with pxRecvSessions := rs }, [])
    | none =>
      match createInFreeSlot env ctx usSessionID ctx.pxRecvSessions with
      | some rs => ({ ctx with pxRecvSessions := rs }, [])
      | none => (ctx, [])

/-! ### Specification-side views of the emission loops -/

/-- The consecutive block numbers `b, b+1, …, b+k-1`. -/
def blockRange : Nat → Nat → List Nat
  | _, 0 => []
  | b, k + 1 => b :: blockRange (b + 1) k

/-- Truncate a block-number list right after the first block that reaches
the object end (the loops' early exit on `xLastBlock`). -/
def truncAtLast (s : SendSession) : List Nat → List Nat
  | [] => []
  | b :: rest => if isLastBlock s b then [b] else b :: truncAtLast s rest

/-- The datagram `prxSendBlock` emits for block `b` of session `s`. -/
def frameOf (env : NetEnv) (s : SendSession) (b : Nat) : List Nat :=
  blockFrame env.mallocByte s.usSessionID b (isLastBlock s b) false (blockPayload s b)

/-- Emission prefix of a frame list under a possibly failing link: frames
are sent in order and the list is cut right after the first frame whose
send is partial. -/
def emitUntilFail (env : NetEnv) : List (List Nat) → List (List Nat)
  | [] => []
  | f :: rest =>
    if env.net f < f.length then [f] else f :: emitUntilFail env rest

/-- Apply `f` to the first list element satisfying `p` (identity when none
does). -/
def applyToFirst (p : α → Bool) (f : α → α) : List α → List α
  | [] => []
  | a :: rest => if p a then f a :: rest else a :: applyToFirst p f rest

/-! ### Loop lemmas -/

theorem memcpyAt_length (src : List Nat) :
    ∀ buf off, (memcpyAt buf off src).length = buf.length := by
  induction src with
  | nil => intro buf off; rfl
  | cons b rest ih =>
    intro buf off
    simp [memcpyAt, ih]

theorem blockFrame_length (mb sid bn : Nat) (l r : Bool) (d : List Nat) :
    (blockFrame mb sid bn l r d).length = d.length + 5 := by
  simp [blockFrame, store8, store16, memcpyAt_length]

theorem ackFrame_length (mb sid e : Nat) (bm : List Nat) :
    (ackFrame mb sid e bm).length = bm.length + 3 := by
  simp [ackFrame, store8, store16, memcpyAt_length]

/-- Closed form of `prxSendBlock` when malloc is available. -/
theorem prxSendBlock_eq (env : NetEnv) (sid bn : Nat) (l r : Bool) (d : List Nat)
    (hm : env.mallocOk = true) :
    prxSendBlock env sid bn l r d =
      ((if env.net (blockFrame env.mallocByte sid bn l r d) < d.length + 5 then
          errNETWORK_ERROR else errSUCCESS),
        [blockFrame env.mallocByte sid bn l r d]) := by
  simp only [prxSendBlock, hm, if_true, blockFrame_length]

/-- With malloc available and a link that always accepts a full frame,
the window loop succeeds and emits exactly the window's blocks up to and
including the one that reaches the object end. -/
theorem prxSendWindowAux_ok (env : NetEnv) (s : SendSession)
    (hm : env.mallocOk = true) (hnet : ∀ f, f.length ≤ env.net f) :
    ∀ k ulIndex, prxSendWindowAux env s ulIndex k =
      (errSUCCESS,
        (truncAtLast s (blockRange (s.usBlockNum + ulIndex) k)).map (frameOf env s)) := by
  intro k
  induction k with
  | zero => intro ulIndex; rfl
  | succ k ih =>
    intro ulIndex
    have hsend : prxSendBlock env s.usSessionID (s.usBlockNum + ulIndex)
        (isLastBlock s (s.usBlockNum + ulIndex)) false
        (blockPayload s (s.usBlockNum + ulIndex)) =
        (errSUCCESS, [frameOf env s (s.usBlockNum + ulIndex)]) := by
      simp only [prxSendBlock, hm, if_true]
      have hle := hnet (blockFrame env.mallocByte s.usSessionID (s.usBlockNum + ulIndex)
        (isLastBlock s (s.usBlockNum + ulIndex)) false (blockPayload s (s.usBlockNum + ulIndex)))
      simp [Nat.not_lt.mpr hle, frameOf]
    simp only [prxSendWindowAux, hsend]
    by_cases hlast : isLastBlock s (s.usBlockNum + ulIndex)
    · simp [hlast, blockRange, truncAtLast, errSUCCESS]
    · have harg : s.usBlockNum + ulIndex + 1 = s.usBlockNum + (ulIndex + 1) := by omega
      simp [hlast, blockRange, truncAtLast, errSUCCESS, ih (ulIndex + 1), harg]

/-- With malloc available, the window loop emits the window's frames in
order, stopping right after the first partial send. -/
theorem prxSendWindowAux_emits (env : NetEnv) (s : SendSession)
    (hm : env.mallocOk = true) :
    ∀ k ulIndex, (prxSendWindowAux env s ulIndex k).2 =
      emitUntilFail env
        ((truncAtLast s (blockRange (s.usBlockNum + ulIndex) k)).map (frameOf env s)) := by
  intro k
  induction k with
  | zero => intro ulIndex; rfl
  | succ k ih =>
    intro ulIndex
    set b := s.usBlockNum + ulIndex with hb
    have hlen : (frameOf env s b).length = (blockPayload s b).length + 5 :=
      blockFrame_length _ _ _ _ _ _
    rw [frameOf] at hlen
    by_cases hfail : env.net (frameOf env s b) < (blockPayload s b).length + 5
    · have hsend : prxSendBlock env s.usSessionID b (isLastBlock s b) false
          (blockPayload s b) = (errNETWORK_ERROR, [frameOf env s b]) := by
        rw [prxSendBlock_eq env _ _ _ _ _ hm, frameOf]
        rw [frameOf] at hfail
        simp [hfail]
      simp only [prxSendWindowAux, hsend]
      have hfail2 : env.net (frameOf env s b) < (frameOf env s b).length := by
        rw [frameOf, hlen]; rw [frameOf] at hfail; exact hfail
      by_cases hlast : isLastBlock s b
      · simp [hlast, blockRange, truncAtLast, emitUntilFail, hfail2, errNETWORK_ERROR,
          errSUCCESS]
      · simp [hlast, blockRange, truncAtLast, emitUntilFail, hfail2, errNETWORK_ERROR,
          errSUCCESS]
    · have hsend : prxSendBlock env s.usSessionID b (isLastBlock s b) false
          (blockPayload s b) = (errSUCCESS, [frameOf env s b]) := by
        rw [prxSendBlock_eq env _ _ _ _ _ hm, frameOf]
        rw [frameOf] at hfail
        simp [hfail]
      have hfail2 : ¬ env.net (frameOf env s b) < (frameOf env s b).length := by
        rw [frameOf, hlen]; rw [frameOf] at hfail; exact hfail
      simp only [prxSendWindowAux, hsend]
      by_cases hlast : isLastBlock s b
      · simp [hlast, blockRange, truncAtLast, emitUntilFail, hfail2, errSUCCESS]
      · have harg : s.usBlockNum + ulIndex + 1 = s.usBlockNum + (ulIndex + 1) := by omega
        simp [hlast, blockRange, truncAtLast, emitUntilFail, hfail2, errSUCCESS,
          ih (ulIndex + 1), harg, hb]

/-- With malloc available and a fully accepting link, the selective
retransmission loop succeeds and emits exactly the set-bit blocks,
truncated right after a set-bit block that reaches the object end. -/
theorem prxRetransmitAux_ok (env : NetEnv) (s : SendSession) (bm : List Nat)
    (hm : env.mallocOk = true) (hnet : ∀ f, f.length ≤ env.net f) :
    ∀ k ulIndex, prxRetransmitAux env s bm ulIndex k =
      (errSUCCESS,
        (truncAtLast s
          ((blockRange (s.usBlockNum + ulIndex) k).filter (fun b => prxIsValueSet bm b))).map
          (frameOf env s)) := by
  intro k
  induction k with
  | zero => intro ulIndex; rfl
  | succ k ih =>
    intro ulIndex
    have harg : s.usBlockNum + ulIndex + 1 = s.usBlockNum + (ulIndex + 1) := by omega
    by_cases hset : prxIsValueSet bm (s.usBlockNum + ulIndex)
    · have hsend : prxSendBlock env s.usSessionID (s.usBlockNum + ulIndex)
          (isLastBlock s (s.usBlockNum + ulIndex)) false
          (blockPayload s (s.usBlockNum + ulIndex)) =
          (errSUCCESS, [frameOf env s (s.usBlockNum + ulIndex)]) := by
        simp only [prxSendBlock, hm, if_true]
        have hle := hnet (blockFrame env.mallocByte s.usSessionID (s.usBlockNum + ulIndex)
          (isLastBlock s (s.usBlockNum + ulIndex)) false
          (blockPayload s (s.usBlockNum + ulIndex)))
        simp [Nat.not_lt.mpr hle, frameOf]
      simp only [prxRetransmitAux, hset, if_true, hsend]
      by_cases hlast : isLastBlock s (s.usBlockNum + ulIndex)
      · simp [hlast, blockRange, truncAtLast, hset, errSUCCESS, List.filter]
      · simp [hlast, blockRange, truncAtLast, hset, errSUCCESS, ih (ulIndex + 1), harg,
          List.filter]
    · simp only [prxRetransmitAux, hset, if_false, Bool.false_eq_true]
      simp [blockRange, List.filter, hset, ih (ulIndex + 1), harg]

/-! ### Sample data used by witnesses and counterexamples -/

/-- Oracle with a fully accepting link and all services available. -/
def goodEnv : NetEnv :=
  { net := fun f => f.length
    mallocByte := 0
    mallocOk := true
    timerStopOk := true
    timerStartOk := true
    timerCreateOk := true }

/-- Oracle whose link reports 0 bytes sent for every datagram. -/
def failNetEnv : NetEnv := { goodEnv with net := fun _ => 0 }

/-- A mid-transfer send session: 40-byte object, two 10-byte blocks per
window, at the start of the first window. -/
def sessA : SendSession :=
  { usSessionID := 7
    pucObject := List.replicate 40 1
    xObjectLength := 40
    xOffset := 0
    usBlockNum := 0
    usWindowSize := 2
    usBlockSize := 10
    usRetriesLeft := 1
    usNumRetries := 3
    xState := SState.dataSend
    timerArmed := true }

/-- `sessA` at the second half-window (`usBlockNum = 1`) with
`usWindowSize = 1`, so a full-window ACK wraps the block number to 0. -/
def sessWrap : SendSession := { sessA with usWindowSize := 1, usBlockNum := 1 }

/-- A free (Init-state) receive slot with session id 2. -/
def recvA : RecvSession :=
  { usSessionID := 2, xOffset := 0, usWindowSize := 0, usBlockSize := 0,
    usNumRetries := 0, usRetriesLeft := 0, xState := SState.init, ackTimerCreated := false }

/-- A context with one send session (id 1) and one free receive slot. -/
def ctxA : Ctx :=
  { xParameters :=
      { usMTU := 25, windowSize := 4, timeoutMilliseconds := 100, numRetransmissions := 3 }
    pxSendSessions := [{ sessA with usSessionID := 1 }]
    pxRecvSessions := [recvA] }

/-! ### Demultiplexer helper lemmas -/

theorem processSendSessions_eq_none (env : NetEnv) (d : List Nat) (sid : Nat) :
    ∀ l : List SendSession, (∀ ss ∈ l, ss.usSessionID ≠ sid) →
      processSendSessions env d sid l = none := by
  intro l
  induction l with
  | nil => intro _; rfl
  | cons a rest ih =>
    intro h
    have ha : ¬ (a.usSessionID = sid) := h a (by simp)
    simp only [processSendSessions, ha, if_false, ite_false]
    rw [ih (fun ss hss => h ss (List.mem_cons_of_mem a hss))]
    rfl

theorem processRecvSessions_eq_none (d : List Nat) (sid : Nat) :
    ∀ l : List RecvSession, (∀ rs ∈ l, rs.usSessionID ≠ sid) →
      processRecvSessions d sid l = none := by
  intro l
  induction l with
  | nil => intro _; rfl
  | cons a rest ih =>
    intro h
    have ha : ¬ (a.usSessionID = sid) := h a (by simp)
    simp only [processRecvSessions, ha, if_false, ite_false]
    rw [ih (fun rs hrs => h rs (List.mem_cons_of_mem a hrs))]
    rfl

/-- The third demux loop fills the first free receive slot (and leaves the
table unchanged when every slot is busy). -/
theorem createInFreeSlot_getD (env : NetEnv) (ctx : Ctx) (sid : Nat) :
    ∀ l : List RecvSession,
      (createInFreeSlot env ctx sid l).getD l =
        applyToFirst (fun rs => sessionFree rs.xState)
          (fun rs => (prxCreateReceiveSession env ctx rs sid).2) l := by
  intro l
  induction l with
  | nil => rfl
  | cons a rest ih =>
    by_cases ha : sessionFree a.xState
    · simp [createInFreeSlot, applyToFirst, ha]
    · simp only [createInFreeSlot, applyToFirst, ha, if_false, ite_false,
        Bool.false_eq_true]
      cases hr : createInFreeSlot env ctx sid rest with
      | none =>
        rw [hr] at ih
        simp at ih
        simp [← ih]
      | some r =>
        rw [hr] at ih
        simp at ih
        simp [ih]

end LargeObjectTransfer

namespace BleLot

/-!
Embedding of the session-handle API revision in
`src/lib/bluetooth_low_energy/services/large_object_transfer/aws_iot_large_object_transfer.c`
(`prusGenerateUUID`, `AwsIotLargeObjectTransfer_Send`).
-/

/-- `AwsIotLargeObjectTransferError_t` of `src/lib/include/aws_iot_large_object_transfer.h`
(second revision, `eAwsIotLargeObjectTransfer…`). -/
inductive BErr where
  | success
  | sessionNotFound
  | sessionFound
  | sessionAborted
  | sessionTimedOut
  | invalidParam
  | noMemory
  | networkError
  | internalError
deriving DecidableEq

/-- One call of `prusGenerateUUID` (lines 121..127): returns the current
static counter and advances it by 2 in `uint16_t` arithmetic. -/
def prusGenerateUUIDStep (usUUID : Nat) : Nat × Nat :=
  (usUUID, (usUUID + 2) % 65536)

/-- The static counter after `n` calls; it starts at 1
(`static uint16_t usUUID = 1`), so `uuidState n` is also the value the
(n+1)-st call returns. -/
def uuidState : Nat → Nat
  | 0 => 1
  | n + 1 => (prusGenerateUUIDStep (uuidState n)).2

/-- `AwsIotLargeObjectTransferParams_t` (header lines 470..490). -/
structure BleParams where
  blockSize : Nat
  windowSize : Nat
  timeoutMilliseconds : Nat
  numRetransmissions : Nat
  sessionExpiryMilliseconds : Nat
deriving DecidableEq

/-- `_largeObjectSendSession_t` fields `AwsIotLargeObjectTransfer_Send`
assigns (`xSize` is left unassigned by `Send` and is not modelled). -/
structure BleSendSession where
  usUUID : Nat
  pucObject : List Nat
  xParams : BleParams
  xOffset : Nat
  usNextBlock : Nat
  timerCreated : Bool
deriving DecidableEq

/-- `_largeObjectTransferSession_t`: the context handle; only the
send-session pointer matters to `Send`. -/
structure BleSession where
  pxSendSession : Option BleSendSession
deriving DecidableEq

/-- Oracles for `Send`'s external collaborators: malloc, the timer
service, and `prxStartLargeObjectTransferSession` (serializer + link),
whose result is injected as `startResult`. -/
structure BleEnv where
  mallocOk : Bool
  timerCreateOk : Bool
  timerStartOk : Bool
  startResult : BErr
deriving DecidableEq

/-- The send-session record `AwsIotLargeObjectTransfer_Send` fills
(lines 450..457): `usNextBlock = _START_BLOCK = 0`, `xOffset = 0`,
`usUUID` from the generator. -/
def mkBleSendSession (uuid : Nat) (pucObject : List Nat) (ps : BleParams)
    (timerCreated : Bool) : BleSendSession :=
  { usUUID := uuid
    pucObject := pucObject
    xParams := ps
    xOffset := 0
    usNextBlock := 0
    timerCreated := timerCreated }

/-- `AwsIotLargeObjectTransfer_Send` (lines 436..508).  Arguments: the
oracle, the static UUID counter, the session handle, the object and the
parameters.  Result: the returned error, the session handle afterwards,
the UUID counter afterwards, and the send-session record the call
allocated but did not store anywhere (`none` when it was freed or never
allocated).  The source checks `pxSession->pxSendSession == NULL`,
allocates and fills a send session, creates and starts the ACK timer and
emits START — but on the all-success path it never assigns
`pxSession->pxSendSession = pxSendSession` (only the error path writes
that field, setting it to NULL), which the fourth component records. -/
def AwsIotLargeObjectTransfer_Send (env : BleEnv) (usUUIDStatic : Nat)
    (xSession : BleSession) (pucObject : List Nat) (pxSendParams : BleParams) :
    BErr × BleSession × Nat × Option BleSendSession :=
  match xSession.pxSendSession with
  | some _ => (BErr.sessionFound, xSession, usUUIDStatic, none)
  | none =>
    if env.mallocOk then
      let g := prusGenerateUUIDStep usUUIDStatic
      let sess := mkBleSendSession g.1 pucObject pxSendParams env.timerCreateOk
      let e1 := if env.timerCreateOk then env.startResult else BErr.internalError
      let e2 :=
        if e1 = BErr.success then
          if env.timerStartOk then BErr.success else BErr.internalError
        else e1
      if e2 = BErr.success then
        (e2, xSession, g.2, some sess)
      else
        (e2, { xSession with pxSendSession := none }, g.2, none)
    else
      (BErr.noMemory, xSession, usUUIDStatic, none)

/-- All-success oracle for the session-handle API. -/
def bleEnvOk : BleEnv :=
  { mallocOk := true, timerCreateOk := true, timerStartOk := true, startResult := BErr.success }

/-- Sample object and parameters for `AwsIotLargeObjectTransfer_Send`. -/
def bleObj : List Nat := [1, 2, 3]

def bleParams : BleParams :=
  { blockSize := 10
    windowSize := 4
    timeoutMilliseconds := 100
    numRetransmissions := 3
    sessionExpiryMilliseconds := 1000 }

end BleLot

namespace LargeObjectTransfer

/-! ## Claim theorems -/

/-- Claim C2 (code_bug evaluation).  `prxSendBlock` with session id 258,
block number 772, LAST set, RESUME clear and the 1-byte payload `[170]`
emits the 6-byte datagram `[2, 1, 4, 3, 170, 0]`: the length is
`n + 5 = 6` and bytes 0..2 / 2..4 hold the session id and block number
little-endian as the claim states, but byte 4 is `170` — the payload
byte, which `memcpy` at `_BLOCK_DATA = pucBlock + 4` wrote over the flags
octet `flagsByte true false = 0xE1` — and byte 5 is the uninitialized
malloc fill byte instead of the payload.  The claim's flags/payload
layout (flags at byte 4, payload from byte 5) is contradicted. -/
theorem claim_C2_block_layout_eval :
    prxSendBlock goodEnv 258 772 true false [170] = (errSUCCESS, [[2, 1, 4, 3, 170, 0]])
    ∧ flagsByte true false = 0xE1
    ∧ [2, 1, 4, 3, 170, 0].getD 4 0 ≠ flagsByte true false
    ∧ List.drop 5 [2, 1, 4, 3, 170, 0] ≠ [170] := by
  decide

/-- Claim C4 (code_bug evaluation).  When the retransmit timer fires with
`usRetriesLeft = 1` and every block send of the window succeeds,
`prvRetransmitWindow` re-emits the whole 2-block window but then — because
the source compares `prxSendWindow`'s error code with `pdFALSE`, the value
of SUCCESS — transitions the session to Failed, leaving `usRetriesLeft`
undecremented and the timer unarmed, contrary to the claim's
"decrement and rearm" behaviour; with `usRetriesLeft = 0` it fails the
session without emitting anything, as the claim states. -/
theorem claim_C4_timer_fired_eval :
    ((prvRetransmitWindow goodEnv { sessA with timerArmed := false }).1.xState = SState.failed
      ∧ (prvRetransmitWindow goodEnv { sessA with timerArmed := false }).1.usRetriesLeft = 1
      ∧ (prvRetransmitWindow goodEnv { sessA with timerArmed := false }).1.timerArmed = false
      ∧ (prvRetransmitWindow goodEnv { sessA with timerArmed := false }).2.length = 2)
    ∧ ((prvRetransmitWindow goodEnv { sessA with timerArmed := false, usRetriesLeft := 0 }).1.xState
          = SState.failed
      ∧ (prvRetransmitWindow goodEnv { sessA with timerArmed := false, usRetriesLeft := 0 }).2
          = []) := by
  decide

/-- Claim C6 (counterexample).  Delivering the 2-byte datagram `[0, 0]` to
the ACK handler is not a silent drop: the session's phase changes (to
Failed), contradicting the claim that the phase is left unchanged. -/
theorem claim_C6_counterexample :
    (prvProcessACK goodEnv sessA [0, 0]).1.xState ≠ sessA.xState := by
  decide

/-- Claim C6 (amended).  For every environment, send session and datagram
shorter than 3 bytes, `prvProcessACK` emits nothing, leaves the offset,
block number, retries and timer untouched — but transitions the session's
phase to Failed (the `_BITMAP_LEN` underflow guard marks the packet
INVALID_PACKET and the common error epilogue fails the session), so the
drop is not silent with respect to the phase. -/
theorem claim_C6_short_ack_amended (env : NetEnv) (s : SendSession) (ack : List Nat)
    (h : ack.length < 3) :
    prvProcessACK env s ack = ({ s with xState := SState.failed }, []) := by
  simp only [prvProcessACK, if_pos h]
  simp [errINVALID_PACKET, errSUCCESS]

/-- Witness for `claim_C6_short_ack_amended` at a concrete input. -/
theorem claim_C6_short_ack_amended_witness :
    ([0, 0] : List Nat).length < 3
    ∧ prvProcessACK goodEnv sessA [0, 0] = ({ sessA with xState := SState.failed }, []) :=
  ⟨by decide, claim_C6_short_ack_amended goodEnv sessA [0, 0] (by decide)⟩

/-- Claim C10 (confirmed).  For an index within the bitmap's bit range,
`prxIsValueSet` returns true exactly when bit `v % 8` of byte `v / 8` is
set (LSB-first within each byte); the embedding is a pure function, so it
cannot modify the bitmap. -/
theorem claim_C10_bitmap_test (bm : List Nat) (v : Nat) (_h : v / 8 < bm.length) :
    prxIsValueSet bm v = true ↔ Nat.testBit (bm.getD (v / 8) 0) (v % 8) := by
  have h8 : (2 : Nat) ^ 3 = 8 := by norm_num
  have h7 : v &&& 0x7 = v % 8 := by
    simpa using Nat.and_pow_two_sub_one_eq_mod v 3
  unfold prxIsValueSet
  rw [decide_eq_true_iff, Nat.shiftRight_eq_div_pow, h8, h7, Nat.one_shiftLeft,
    Nat.and_two_pow]
  cases htb : Nat.testBit (bm.getD (v / 8) 0) (v % 8) <;> simp [htb]

/-- Witness for `claim_C10_bitmap_test`: bit 1 of the 1-byte bitmap
`[2]`. -/
theorem claim_C10_bitmap_test_witness :
    1 / 8 < ([2] : List Nat).length
    ∧ (prxIsValueSet [2] 1 = true ↔ Nat.testBit (([2] : List Nat).getD (1 / 8) 0) (1 % 8)) :=
  ⟨by decide, claim_C10_bitmap_test [2] 1 (by decide)⟩

/-- Claim C1 (counterexample).  `sessWrap` (window size 1, block number 1)
receives the valid full-window ACK `[7, 0, 0]`.  The block number wraps to
0, so the claim demands the offset advance by
`window_size · block_size = 10` and `retries_left` be reset to
`max_retransmits = 3`; the code instead advances the offset by
`2 · window_size · block_size = 20` (`_INCR_OFFSET` adds
`_NUM_BLOCKS_PER_WINDOW * blockSize`) and leaves `retries_left` at 1
(no statement in `prvProcessACK` writes it). -/
theorem claim_C1_counterexample :
    (prvProcessACK goodEnv sessWrap [7, 0, 0]).1.usBlockNum = 0
    ∧ (prvProcessACK goodEnv sessWrap [7, 0, 0]).1.xOffset
        ≠ sessWrap.xOffset + sessWrap.usWindowSize * sessWrap.usBlockSize
    ∧ (prvProcessACK goodEnv sessWrap [7, 0, 0]).1.usRetriesLeft ≠ sessWrap.usNumRetries := by
  decide

/-- Claim C1 (amended).  A valid full-window ACK (length 3, error byte 0)
delivered while malloc, the timer service and the link all succeed makes
`prvProcessACK` advance `usBlockNum` to
`(usBlockNum + usWindowSize) mod (2·usWindowSize)`; exactly when the new
block number wrapped to 0 it advances `xOffset` by
`2 · usWindowSize · usBlockSize` (not `usWindowSize · usBlockSize` as the
claim stated); then, if the new offset reaches the object length it
transitions the session to Complete with the timer stopped, and otherwise
it leaves `usRetriesLeft` unchanged (the claim's reset to
`usNumRetries` does not happen), emits the next window and rearms the
retransmit timer. -/
theorem claim_C1_full_window_ack_amended (env : NetEnv) (s : SendSession) (ack : List Nat)
    (hm : env.mallocOk = true) (hstop : env.timerStopOk = true)
    (hstart : env.timerStartOk = true) (hnet : ∀ f, f.length ≤ env.net f)
    (hlen : ack.length = 3) (herr : ack.getD 2 0 = 0) :
    prvProcessACK env s ack =
      (let bNew := (s.usBlockNum + s.usWindowSize) % (2 * s.usWindowSize)
       let oNew := if bNew = 0 then s.xOffset + 2 * s.usWindowSize * s.usBlockSize else s.xOffset
       let sAdv : SendSession := { s with usBlockNum := bNew, xOffset := oNew, timerArmed := false }
       if oNew < s.xObjectLength then
         ({ sAdv with timerArmed := true },
           (truncAtLast sAdv (blockRange bNew s.usWindowSize)).map (frameOf env sAdv))
       else
         ({ sAdv with xState := SState.complete }, [])) := by
  have hlt : ¬ ((3 : Nat) < 3) := by omega
  by_cases hb : (s.usBlockNum + s.usWindowSize) % (2 * s.usWindowSize) = 0
  · by_cases ho : s.xOffset + 2 * s.usWindowSize * s.usBlockSize < s.xObjectLength
    · simp only [prvProcessACK, hlen, hlt, if_false, herr, errSUCCESS, errINTERNAL_ERROR,
        hstop, hstart, if_true, Nat.sub_self, ne_eq, not_true_eq_false, not_false_eq_true,
        ite_true, ite_false, hb, ho, prxSendWindow]
      rw [prxSendWindowAux_ok env _ hm hnet]
      simp [errSUCCESS, errINTERNAL_ERROR, hstart]
    · simp only [prvProcessACK, hlen, hlt, if_false, herr, errSUCCESS, errINTERNAL_ERROR,
        hstop, hstart, if_true, Nat.sub_self, ne_eq, not_true_eq_false, not_false_eq_true,
        ite_true, ite_false, hb, ho]
  · by_cases ho : s.xOffset < s.xObjectLength
    · simp only [prvProcessACK, hlen, hlt, if_false, herr, errSUCCESS, errINTERNAL_ERROR,
        hstop, hstart, if_true, Nat.sub_self, ne_eq, not_true_eq_false, not_false_eq_true,
        ite_true, ite_false, hb, ho, prxSendWindow]
      rw [prxSendWindowAux_ok env _ hm hnet]
      simp [errSUCCESS, errINTERNAL_ERROR, hstart]
    · simp only [prvProcessACK, hlen, hlt, if_false, herr, errSUCCESS, errINTERNAL_ERROR,
        hstop, hstart, if_true, Nat.sub_self, ne_eq, not_true_eq_false, not_false_eq_true,
        ite_true, ite_false, hb, ho]

/-- Witness for `claim_C1_full_window_ack_amended`: `sessWrap` with the
ACK `[7, 0, 0]` wraps to block 0, advances the offset to 20 and emits the
next (15-byte) window frame with the timer rearmed. -/
theorem claim_C1_full_window_ack_amended_witness :
    prvProcessACK goodEnv sessWrap [7, 0, 0] =
      ({ sessWrap with usBlockNum := 0, xOffset := 20, timerArmed := true },
        [[7, 0, 0, 0, 1, 1, 1, 1, 1, 1, 1, 1, 1, 1, 0]]) := by
  rw [claim_C1_full_window_ack_amended goodEnv sessWrap [7, 0, 0] rfl rfl rfl
    (fun f => Nat.le_refl f.length) rfl rfl]
  decide

/-- Claim C3 (counterexample).  A valid selective-retransmit ACK
(`[7, 0, 0, 1]`, bitmap length 1 = ceil(2·1/8), bit 0 set) processed with
every service succeeding re-emits block 0, but leaves the retransmit
timer stopped: the armed timer (`sessA.timerArmed = true`) is stopped at
ACK entry and `prvProcessACK`'s selective-retransmit branch contains no
`xTimerStart`, contradicting the claim that the timer is rearmed. -/
theorem claim_C3_counterexample :
    sessA.timerArmed = true
    ∧ (prvProcessACK goodEnv { sessA with usWindowSize := 1 } [7, 0, 0, 1]).2.length = 1
    ∧ (prvProcessACK goodEnv { sessA with usWindowSize := 1 } [7, 0, 0, 1]).1.timerArmed
        = false := by
  decide

/-- Claim C3 (amended).  A valid selective-retransmit ACK (length
`3 + ceil(2·usWindowSize/8)`, error byte 0) delivered while malloc, the
timer stop and the link all succeed makes `prvProcessACK` re-emit exactly
the blocks of the current window whose bitmap bit is set, in ascending
order and truncated right after a set-bit block that covers the final
object bytes, with the LAST indicator passed exactly on a block covering
the final object bytes; it leaves `usRetriesLeft`, `xOffset`,
`usBlockNum` and the phase unchanged — but the retransmit timer, stopped
on ACK receipt, is NOT rearmed (the claim's rearming does not happen). -/
theorem claim_C3_selective_retransmit_amended (env : NetEnv) (s : SendSession)
    (ack : List Nat) (hm : env.mallocOk = true) (hstop : env.timerStopOk = true)
    (hnet : ∀ f, f.length ≤ env.net f) (hw : 0 < s.usWindowSize)
    (hlen : ack.length = 3 + bitmapSize s.usWindowSize)
    (herr : ack.getD 2 0 = 0) :
    prvProcessACK env s ack =
      (let sStop : SendSession := { s with timerArmed := false }
       (sStop,
         (truncAtLast sStop
           ((blockRange s.usBlockNum s.usWindowSize).filter
             (fun b => prxIsValueSet (ack.drop 3) b))).map (frameOf env sStop))) := by
  have hBpos : 0 < bitmapSize s.usWindowSize := by
    rw [bitmapSize, Nat.shiftRight_eq_div_pow]
    have h8 : (2 : Nat) ^ 3 = 8 := by norm_num
    rw [h8]
    omega
  have hlt : ¬ (ack.length < 3) := by omega
  have hsub : ack.length - 3 = bitmapSize s.usWindowSize := by omega
  have hBne : bitmapSize s.usWindowSize ≠ 0 := by omega
  simp only [prvProcessACK, hlt, if_false, herr, errSUCCESS, errINTERNAL_ERROR, hstop,
    if_true, ne_eq, hsub, hBne, not_false_eq_true, ite_true, ite_false,
    prxRetransmitMissingBlocks, not_true_eq_false]
  rw [prxRetransmitAux_ok env _ (ack.drop 3) hm hnet]
  simp [errSUCCESS]

/-- Witness for `claim_C3_selective_retransmit_amended`: bitmap bit 0 set
re-emits block 0 (15 bytes) and the timer stays stopped. -/
theorem claim_C3_selective_retransmit_amended_witness :
    prvProcessACK goodEnv { sessA with usWindowSize := 1 } [7, 0, 0, 1] =
      ({ sessA with usWindowSize := 1, timerArmed := false },
        [[7, 0, 0, 0, 1, 1, 1, 1, 1, 1, 1, 1, 1, 1, 0]]) := by
  rw [claim_C3_selective_retransmit_amended goodEnv { sessA with usWindowSize := 1 }
    [7, 0, 0, 1] rfl rfl (fun f => Nat.le_refl f.length) (by decide) rfl rfl]
  decide

/-- Claim C5 (counterexample).  The 3-byte datagram `[9, 0, 0]` matches no
session of `ctxA` and is certainly not a START control message (part_001
contains no control-message parsing at all), yet the demux creates a
receive session for id 9 in the free slot: the context changes, so the
datagram was not dropped with session state unchanged. -/
theorem claim_C5_counterexample :
    (prvNetworkReceiveCallback goodEnv ctxA [9, 0, 0]).1 ≠ ctxA
    ∧ ((prvNetworkReceiveCallback goodEnv ctxA [9, 0, 0]).1.pxRecvSessions.getD 0
        recvA).usSessionID = 9 := by
  decide

/-- Claim C5 (amended).  For every inbound datagram whose session id
(bytes 0..2, read without any length check) matches no send or receive
session, the demux creates a receive session in the FIRST FREE receive
slot whenever one exists — it never attempts to parse the datagram as a
START control message, so creation happens for arbitrary datagram
contents — and when no slot is free the datagram is dropped with only an
error log; in every case nothing is emitted in reply, and in the no-slot
case no session state changes. -/
theorem claim_C5_demux_unmatched_amended (env : NetEnv) (ctx : Ctx) (d : List Nat)
    (hsend : ∀ ss ∈ ctx.pxSendSessions, ss.usSessionID ≠ d.getD 0 0 + 256 * d.getD 1 0)
    (hrecv : ∀ rs ∈ ctx.pxRecvSessions, rs.usSessionID ≠ d.getD 0 0 + 256 * d.getD 1 0) :
    prvNetworkReceiveCallback env ctx d =
      ({ ctx with pxRecvSessions :=
          (applyToFirst (fun rs => sessionFree rs.xState)
            (fun rs => (prxCreateReceiveSession env ctx rs (d.getD 0 0 + 256 * d.getD 1 0)).2)
            ctx.pxRecvSessions) }, []) := by
  simp only [prvNetworkReceiveCallback]
  rw [processSendSessions_eq_none env d _ ctx.pxSendSessions hsend,
      processRecvSessions_eq_none d _ ctx.pxRecvSessions hrecv]
  have h := createInFreeSlot_getD env ctx (d.getD 0 0 + 256 * d.getD 1 0) ctx.pxRecvSessions
  cases hc : createInFreeSlot env ctx (d.getD 0 0 + 256 * d.getD 1 0) ctx.pxRecvSessions with
  | none =>
    rw [hc] at h
    simp only [Option.getD] at h
    rw [← h]
  | some r =>
    rw [hc] at h
    simp only [Option.getD] at h
    rw [← h]

/-- Witness for `claim_C5_demux_unmatched_amended`: the unmatched datagram
`[9, 0, 0]` turns `ctxA`'s free slot into a receive session for id 9 with
the context's parameters, and nothing is emitted. -/
theorem claim_C5_demux_unmatched_amended_witness :
    prvNetworkReceiveCallback goodEnv ctxA [9, 0, 0] =
      ({ ctxA with pxRecvSessions :=
          ([{ recvA with
              usSessionID := 9
              usWindowSize := 4
              usBlockSize := 20
              usNumRetries := 3
              usRetriesLeft := 3
              ackTimerCreated := true }]) }, []) := by
  rw [claim_C5_demux_unmatched_amended goodEnv ctxA [9, 0, 0] (by decide) (by decide)]
  decide

/-- Claim C7 (counterexample).  With a link that reports 0 bytes sent,
`prxSendWindow` on `sessA` emits only one datagram and stops, although the
current window consists of two blocks (neither of which is the last block
of the object): a send failure of one block does stop the sender from
emitting the remaining blocks, contradicting the claim. -/
theorem claim_C7_counterexample :
    (prxSendWindow failNetEnv sessA).2.length = 1
    ∧ (truncAtLast sessA (blockRange sessA.usBlockNum sessA.usWindowSize)).length = 2
    ∧ (prxSendWindow failNetEnv sessA).1 = errNETWORK_ERROR := by
  decide

/-- Claim C7 (amended).  With malloc available: (1) `prxSendBlock` reports
NETWORK_ERROR exactly when the link accepts fewer than the frame's
`n + 5` bytes; (2) `prvSendACK` (called with the SUCCESS error-in of the
ACK paths) reports NETWORK_ERROR exactly when the link accepts fewer than
the frame's `bitmap + 3` bytes; but (3) a window emission stops at the
first block whose send fails: `prxSendWindow` emits the window's frames in
order only up to and including the first frame with a partial send, rather
than continuing with the remaining blocks. -/
theorem claim_C7_network_error_amended (env : NetEnv) (sid bn : Nat) (l r : Bool)
    (d bm : List Nat) (s : SendSession) (hm : env.mallocOk = true) :
    ((prxSendBlock env sid bn l r d).1 = errNETWORK_ERROR
      ↔ env.net (blockFrame env.mallocByte sid bn l r d) < d.length + 5)
    ∧ ((prvSendACK env sid errSUCCESS bm).1 = errNETWORK_ERROR
      ↔ env.net (ackFrame env.mallocByte sid errSUCCESS bm) < bm.length + 3)
    ∧ (prxSendWindow env s).2 =
        emitUntilFail env
          ((truncAtLast s (blockRange s.usBlockNum s.usWindowSize)).map (frameOf env s)) := by
  refine ⟨?_, ?_, ?_⟩
  · rw [prxSendBlock_eq env sid bn l r d hm]
    by_cases hc : env.net (blockFrame env.mallocByte sid bn l r d) < d.length + 5
    · simp [hc]
    · simp [hc, errNETWORK_ERROR, errSUCCESS]
  · simp only [prvSendACK, hm, if_true, ackFrame_length]
    by_cases hc : env.net (ackFrame env.mallocByte sid errSUCCESS bm) < bm.length + 3
    · simp [hc]
    · simp [hc, errNETWORK_ERROR, errSUCCESS]
  · have h := prxSendWindowAux_emits env s hm s.usWindowSize 0
    rw [prxSendWindow, h, Nat.add_zero]

/-- Witness for `claim_C7_network_error_amended` under the failing link. -/
theorem claim_C7_network_error_amended_witness :
    failNetEnv.mallocOk = true
    ∧ (((prxSendBlock failNetEnv 7 0 true false [1, 2]).1 = errNETWORK_ERROR
        ↔ failNetEnv.net (blockFrame failNetEnv.mallocByte 7 0 true false [1, 2])
            < ([1, 2] : List Nat).length + 5)
      ∧ ((prvSendACK failNetEnv 7 errSUCCESS [0]).1 = errNETWORK_ERROR
        ↔ failNetEnv.net (ackFrame failNetEnv.mallocByte 7 errSUCCESS [0])
            < ([0] : List Nat).length + 3)
      ∧ (prxSendWindow failNetEnv sessA).2 =
          emitUntilFail failNetEnv
            ((truncAtLast sessA (blockRange sessA.usBlockNum sessA.usWindowSize)).map
              (frameOf failNetEnv sessA))) :=
  ⟨rfl, claim_C7_network_error_amended failNetEnv 7 0 true false [1, 2] [0] sessA rfl⟩

end LargeObjectTransfer

namespace BleLot

/-- Claim C9 (confirmed).  The n-th value returned by `prusGenerateUUID`
is `uuidState n`; every such value is odd and fits in 16 bits (the counter
starts at 1 and steps by 2 modulo 2^16, which preserves oddness), so a
send-initiated identifier never equals any even identifier. -/
theorem claim_C9_uuid_odd (n : Nat) : uuidState n % 2 = 1 ∧ uuidState n < 65536 := by
  induction n with
  | zero => exact ⟨rfl, by decide⟩
  | succ n ih =>
    have h2 : (2 : Nat) ∣ 65536 := by norm_num
    refine ⟨?_, Nat.mod_lt _ (by norm_num)⟩
    show ((uuidState n + 2) % 65536) % 2 = 1
    rw [Nat.mod_mod_of_dvd _ h2, Nat.add_mod_right]
    exact ih.1

/-- Claim C8 (code_bug evaluation).  Two consecutive
`AwsIotLargeObjectTransfer_Send` calls on a freshly created handle, with
every collaborator succeeding.  The first call succeeds but leaves
`pxSendSession` NULL (the success path never stores the allocated session,
it only leaks it), so the second call also returns success — allocating a
second session with the next UUID and advancing the generator to 5 —
instead of returning `eAwsIotLargeObjectTransferSessionFound` as the claim
requires. -/
theorem claim_C8_second_send_eval :
    (AwsIotLargeObjectTransfer_Send bleEnvOk 1 ⟨none⟩ bleObj bleParams).1 = BErr.success
    ∧ (AwsIotLargeObjectTransfer_Send bleEnvOk 1 ⟨none⟩ bleObj bleParams).2.1.pxSendSession = none
    ∧ (AwsIotLargeObjectTransfer_Send bleEnvOk 1 ⟨none⟩ bleObj bleParams).2.2.2
        = some (mkBleSendSession 1 bleObj bleParams true)
    ∧ (AwsIotLargeObjectTransfer_Send bleEnvOk
        (AwsIotLargeObjectTransfer_Send bleEnvOk 1 ⟨none⟩ bleObj bleParams).2.2.1
        (AwsIotLargeObjectTransfer_Send bleEnvOk 1 ⟨none⟩ bleObj bleParams).2.1
        bleObj bleParams).1 = BErr.success
    ∧ (AwsIotLargeObjectTransfer_Send bleEnvOk
        (AwsIotLargeObjectTransfer_Send bleEnvOk 1 ⟨none⟩ bleObj bleParams).2.2.1
        (AwsIotLargeObjectTransfer_Send bleEnvOk 1 ⟨none⟩ bleObj bleParams).2.1
        bleObj bleParams).1 ≠ BErr.sessionFound
    ∧ (AwsIotLargeObjectTransfer_Send bleEnvOk
        (AwsIotLargeObjectTransfer_Send bleEnvOk 1 ⟨none⟩ bleObj bleParams).2.2.1
        (AwsIotLargeObjectTransfer_Send bleEnvOk 1 ⟨none⟩ bleObj bleParams).2.1
        bleObj bleParams).2.2.1 = 5 := by
  decide

end BleLot
